import Mathlib

/-
Shallow embedding of runtime/near-evm-runner/src/lib.rs: the EVM dispatch
layer that binds an EVM-style account model to a host-chain trie.  Pure
functions of the source become Lean functions; the mutable trie handle is
threaded explicitly; Rust panics are modelled as an explicit result
constructor.  Components of the crate that are referenced by lib.rs but whose
modules are not part of the examined source (crate::errors, crate::evm_state
helpers, crate::types, crate::utils) are modelled from the specification and
marked as such in their doc comments.
-/

/-- A byte, as stored in the trie and in argument buffers. -/
abbrev Byte := Fin 256

/-- A byte buffer (Vec of u8 in the source). -/
abbrev Bytes := List Byte

/-- Little-endian base-256 encoding of a natural number into a fixed number
of bytes, truncating above 256 ^ k.  Support for the modelled borsh
serialization of fixed-width unsigned integers. -/
def natToBytesLE : Nat → Nat → Bytes
  | 0, _ => []
  | k + 1, n => ⟨n % 256, Nat.mod_lt _ (by decide)⟩ :: natToBytesLE k (n / 256)

/-- Little-endian base-256 decoding of a byte buffer. -/
def bytesToNatLE : Bytes → Nat
  | [] => 0
  | b :: bs => b.val + 256 * bytesToNatLE bs

theorem length_natToBytesLE (k n : Nat) : (natToBytesLE k n).length = k := by
  induction k generalizing n with
  | zero => rfl
  | succ k ih => simp [natToBytesLE, ih]

theorem bytesToNatLE_natToBytesLE (k n : Nat) :
    bytesToNatLE (natToBytesLE k n) = n % 256 ^ k := by
  induction k generalizing n with
  | zero => simp [natToBytesLE, bytesToNatLE, Nat.mod_one]
  | succ k ih =>
    have h1 : n % 256 ^ (k + 1) % 256 = n % 256 :=
      Nat.mod_mod_of_dvd n (dvd_pow_self 256 (Nat.succ_ne_zero k))
    have h2 : n % 256 ^ (k + 1) / 256 = n / 256 % 256 ^ k := by
      rw [pow_succ, mul_comm, Nat.mod_mul_right_div_self]
    have h3 := Nat.mod_add_div (n % 256 ^ (k + 1)) 256
    show n % 256 + 256 * bytesToNatLE (natToBytesLE k (n / 256)) = n % 256 ^ (k + 1)
    rw [ih, ← h1, ← h2]
    exact h3

theorem bytesToNatLE_lt (bs : Bytes) : bytesToNatLE bs < 256 ^ bs.length := by
  induction bs with
  | nil => simp [bytesToNatLE]
  | cons b bs ih =>
    have hb := b.isLt
    simp only [bytesToNatLE, List.length_cons, pow_succ]
    omega

/-- Modelled from the spec: the error taxonomy of crate::errors (not part of
the examined source), per the spec error-handling section: argument parse
failure, missing deposit, insufficient funds, and the unknown-method
catch-all. -/
inductive EvmError where
  | ArgumentParseError
  | MissingDeposit
  | InsufficientFunds
  | UnknownError
  deriving DecidableEq

/-- Outcome of a Rust function that may panic: a value, a typed error, or a
process abort (Rust panic, e.g. a failed slice-length assertion or an
unimplemented body). -/
inductive EvmResult (α : Type) where
  | ok : α → EvmResult α
  | err : EvmError → EvmResult α
  | panic : EvmResult α
  deriving DecidableEq

/-- Functorial map on the ok value, mirroring Result::map in the source. -/
def EvmResult.map (f : α → β) : EvmResult α → EvmResult β
  | .ok a => .ok (f a)
  | .err e => .err e
  | .panic => .panic

/-- The only trie key shape used by the source:
TrieKey::ContractData \x7b account_id, key \x7d. -/
structure TrieKey where
  account_id : String
  key : Bytes
  deriving DecidableEq

/-- The host trie (near_store TrieUpdate), an external collaborator treated
per the spec as an abstract key-value store with get and set. -/
def Trie := TrieKey → Option Bytes

/-- The empty trie: every key absent. -/
def Trie.empty : Trie := fun _ => none

/-- Read a key.  Trie-level read errors are treated as absence by the source
(unwrap_or_else to None), so the model returns an Option directly. -/
def Trie.get (t : Trie) (k : TrieKey) : Option Bytes := t k

/-- Write a key. -/
def Trie.set (t : Trie) (k : TrieKey) (v : Bytes) : Trie :=
  fun k2 => if k2 = k then some v else t k2

/-- Modelled from the spec: crate::evm_state::EvmAccount (not part of the
examined source) — the Account Record with an unsigned 256-bit balance and
nonce; absence of a stored record is equivalent to the all-zero record. -/
structure EvmAccount where
  balance : Nat
  nonce : Nat
  deriving DecidableEq

/-- Modelled from the spec: EvmAccount::default(), the all-fields-zero
record. -/
def EvmAccount.default : EvmAccount := ⟨0, 0⟩

/-- Modelled from the spec: borsh serialization of EvmAccount
(try_to_vec in the source) — each 256-bit field as 32 little-endian bytes. -/
def EvmAccount.serialize (a : EvmAccount) : Bytes :=
  natToBytesLE 32 a.balance ++ natToBytesLE 32 a.nonce

/-- Modelled from the spec: borsh deserialization of EvmAccount
(EvmAccount::try_from_slice in the source) — requires the exact encoded
length, else fails. -/
def EvmAccount.deserialize (bs : Bytes) : Option EvmAccount :=
  if bs.length = 64 then
    some ⟨bytesToNatLE (bs.take 32), bytesToNatLE (bs.drop 32)⟩
  else none

theorem EvmAccount.deserialize_serialize (a : EvmAccount)
    (hb : a.balance < 2 ^ 256) (hn : a.nonce < 2 ^ 256) :
    EvmAccount.deserialize (EvmAccount.serialize a) = some a := by
  have h256 : (2 : Nat) ^ 256 = 256 ^ 32 := by norm_num
  have hlb := length_natToBytesLE 32 a.balance
  have hln := length_natToBytesLE 32 a.nonce
  unfold EvmAccount.serialize EvmAccount.deserialize
  rw [if_pos, List.take_left' hlb, List.drop_left' hlb,
    bytesToNatLE_natToBytesLE, bytesToNatLE_natToBytesLE,
    Nat.mod_eq_of_lt (by omega), Nat.mod_eq_of_lt (by omega)]
  rw [List.length_append, hlb, hln]

theorem EvmAccount.deserialize_bounds (bs : Bytes) (a : EvmAccount)
    (h : EvmAccount.deserialize bs = some a) :
    a.balance < 2 ^ 256 ∧ a.nonce < 2 ^ 256 := by
  have h256 : (2 : Nat) ^ 256 = 256 ^ 32 := by norm_num
  unfold EvmAccount.deserialize at h
  by_cases hl : bs.length = 64
  · rw [if_pos hl] at h
    obtain rfl := Option.some.inj h
    have h1 := bytesToNatLE_lt (bs.take 32)
    have h2 := bytesToNatLE_lt (bs.drop 32)
    have hl1 : (bs.take 32).length = 32 := by simp [hl]
    have hl2 : (bs.drop 32).length = 32 := by simp [hl]
    rw [hl1] at h1
    rw [hl2] at h2
    constructor
    · show bytesToNatLE (bs.take 32) < 2 ^ 256
      omega
    · show bytesToNatLE (bs.drop 32) < 2 ^ 256
      omega
  · rw [if_neg hl] at h
    exact absurd h (by simp)

/-- The Execution Context of the source: a mutable handle to the host trie
plus the invocation identity (host account id, caller id, attached deposit).
Mutation is modelled by returning an updated context. -/
structure EvmContext where
  trie_update : Trie
  account_id : String
  predecessor_id : String
  attached_deposit : Nat

/-- EvmContext::new from the source. -/
def EvmContext.new (state_update : Trie) (account_id predecessor_id : String)
    (attached_deposit : Nat) : EvmContext :=
  ⟨state_update, account_id, predecessor_id, attached_deposit⟩

/-- EvmState::set_account for EvmContext: stores the borsh-serialized record
under TrieKey::ContractData keyed by the account id and the 20 address
bytes.  Serialization failure is a process abort in the source (expect) and
the modelled serializer is total. -/
def EvmContext.set_account (self : EvmContext) (address : Bytes)
    (account : EvmAccount) : EvmContext :=
  { self with
    trie_update :=
      self.trie_update.set ⟨self.account_id, address⟩ account.serialize }

/-- EvmState::get_account for EvmContext: reads the trie, treats a read error
as absence, deserializes, and defaults to the zero record on absence or on a
deserialization error — the unwrap_or_else chain of the source. -/
def EvmContext.get_account (self : EvmContext) (address : Bytes) : EvmAccount :=
  (((self.trie_update.get ⟨self.account_id, address⟩).map
    EvmAccount.deserialize).getD (some EvmAccount.default)).getD
    EvmAccount.default

/-- EvmState::code_at for EvmContext is unimplemented in the source: every
call aborts the process. -/
def EvmContext.code_at (_self : EvmContext) (_address : Bytes) :
    EvmResult (Option Bytes) :=
  .panic

/-- Contract-storage read.  The trait-provided wrapper (crate::evm_state, not
part of the examined source) builds the 52-byte composite key and delegates
to _read_contract_storage, which is unimplemented in the examined source, so
every call aborts the process. -/
def EvmContext.read_contract_storage (_self : EvmContext) (_address : Bytes)
    (_key : Bytes) : EvmResult (Option Bytes) :=
  .panic

/-- Modelled from the spec: the balance_of convenience operation of
crate::evm_state (not part of the examined source), implemented purely in
terms of get_account. -/
def EvmContext.balance_of (self : EvmContext) (address : Bytes) : Nat :=
  (self.get_account address).balance

/-- Modelled from the spec: the add_balance convenience operation of
crate::evm_state (not part of the examined source), implemented purely in
terms of get_account and set_account. -/
def EvmContext.add_balance (self : EvmContext) (address : Bytes)
    (amount : Nat) : EvmContext :=
  self.set_account address
    { self.get_account address with
      balance := (self.get_account address).balance + amount }

/-- Modelled from the spec: the sub_balance convenience operation of
crate::evm_state (not part of the examined source), implemented purely in
terms of get_account and set_account; only invoked by the source after the
balance check, so natural-number truncated subtraction is exact there. -/
def EvmContext.sub_balance (self : EvmContext) (address : Bytes)
    (amount : Nat) : EvmContext :=
  self.set_account address
    { self.get_account address with
      balance := (self.get_account address).balance - amount }

/-- Modelled from the spec: utils::near_account_id_to_evm_address (not part
of the examined source) — the fixed deterministic derivation of a 20-byte
EVM address from a host account id. -/
def near_account_id_to_evm_address (account_id : String) : Bytes :=
  ((account_id.toList.map
    (fun c => (⟨c.toNat % 256, Nat.mod_lt _ (by decide)⟩ : Byte))) ++
    List.replicate 20 (0 : Byte)).take 20

/-- Modelled from the spec: utils::u256_to_vec (not part of the examined
source) — the canonical 32-byte big-endian serialization of a 256-bit
integer. -/
def u256_to_vec (n : Nat) : Bytes := (natToBytesLE 32 n).reverse

/-- Modelled from the spec: utils::address_to_vec (not part of the examined
source) — an address is returned as its raw 20 bytes. -/
def address_to_vec (a : Bytes) : Bytes := a

/-- Modelled from the spec: borsh decoding of crate::types::GetCodeArgs (not
part of the examined source) — a wrapped 20-byte address, failing on any
other length. -/
def GetCodeArgs.try_from_slice (bs : Bytes) : Option Bytes :=
  if bs.length = 20 then some bs else none

/-- Modelled from the spec: borsh decoding of crate::types::GetStorageAtArgs
(not part of the examined source) — a wrapped 20-byte address followed by a
32-byte slot key, exactly 52 bytes, failing on any other length. -/
def GetStorageAtArgs.try_from_slice (bs : Bytes) : Option (Bytes × Bytes) :=
  if bs.length = 52 then some (bs.take 20, bs.drop 20) else none

/-- Modelled from the spec: borsh decoding of crate::types::WithdrawNearArgs
(not part of the examined source) — a wrapped unsigned 128-bit amount as 16
little-endian bytes, failing on any other length. -/
def WithdrawNearArgs.try_from_slice (bs : Bytes) : Option Nat :=
  if bs.length = 16 then some (bytesToNatLE bs) else none

/-- Signature of interpreter::deploy_code, the external Interpreter
collaborator: context, sender, origin, value, bytecode, returning the new
contract address (fixed arguments of the source call site — depth 0,
sender-and-nonce creation scheme — are not parameters). -/
def DeployInterp : Type :=
  EvmContext → Bytes → Bytes → Nat → Bytes → EvmResult Bytes × EvmContext

/-- Signature of interpreter::call, the external Interpreter collaborator:
context, sender, origin, optional value, target address, input data,
returning the raw return data. -/
def CallInterp : Type :=
  EvmContext → Bytes → Bytes → Option Nat → Bytes → Bytes →
    EvmResult Bytes × EvmContext

/-- EvmContext::deploy_code from the source: derives the sender address from
the caller id and delegates contract creation to the Interpreter with value
equal to the attached deposit. -/
def EvmContext.deploy_code (interp : DeployInterp) (self : EvmContext)
    (bytecode : Bytes) : EvmResult Bytes × EvmContext :=
  let sender := near_account_id_to_evm_address self.predecessor_id
  interp self sender sender self.attached_deposit bytecode

/-- EvmContext::call_function from the source: the first 20 bytes of the
buffer are the target address and the rest is call data.  The source slices
args[..20] without a length check, so a buffer shorter than 20 bytes aborts
the process. -/
def EvmContext.call_function (interp : CallInterp) (self : EvmContext)
    (args : Bytes) : EvmResult Bytes × EvmContext :=
  if 20 ≤ args.length then
    let contract_address := args.take 20
    let input := args.drop 20
    let sender := near_account_id_to_evm_address self.predecessor_id
    let value :=
      if self.attached_deposit = 0 then none else some self.attached_deposit
    interp self sender sender value contract_address input
  else (.panic, self)

/-- EvmContext::get_code from the source: decodes the wrapped address
(decode failure is an argument parse error) and returns the stored code,
defaulting to the empty buffer; the underlying code_at aborts. -/
def EvmContext.get_code (self : EvmContext) (args : Bytes) :
    EvmResult Bytes :=
  match GetCodeArgs.try_from_slice args with
  | none => .err .ArgumentParseError
  | some a =>
    match self.code_at a with
    | .ok code => .ok (code.getD [])
    | .err e => .err e
    | .panic => .panic

/-- EvmContext::get_storage_at from the source: decodes the wrapped address
and slot (decode failure is an argument parse error) and returns the stored
32-byte value, defaulting to all zeroes; the underlying storage read
aborts. -/
def EvmContext.get_storage_at (self : EvmContext) (args : Bytes) :
    EvmResult Bytes :=
  match GetStorageAtArgs.try_from_slice args with
  | none => .err .ArgumentParseError
  | some a =>
    match self.read_contract_storage a.1 a.2 with
    | .ok v => .ok (v.getD (List.replicate 32 0))
    | .err e => .err e
    | .panic => .panic

/-- EvmContext::get_balance from the source: Address::from_slice asserts the
buffer is exactly 20 bytes (else the process aborts), then the balance is
read. -/
def EvmContext.get_balance (self : EvmContext) (args : Bytes) :
    EvmResult Nat :=
  if args.length = 20 then .ok (self.balance_of args) else .panic

/-- EvmContext::deposit_near from the source: a zero attached deposit is
rejected first; then Address::from_slice asserts a 20-byte buffer (else the
process aborts); then the deposit is credited and the new balance
returned. -/
def EvmContext.deposit_near (self : EvmContext) (args : Bytes) :
    EvmResult Nat × EvmContext :=
  if self.attached_deposit = 0 then (.err .MissingDeposit, self)
  else if args.length = 20 then
    let address := args
    let self2 := self.add_balance address self.attached_deposit
    (.ok (self2.balance_of address), self2)
  else (.panic, self)

/-- EvmContext::withdraw_near from the source: decodes the wrapped amount
(decode failure is an argument parse error), rejects an amount above the
sender balance with InsufficientFunds, and otherwise debits the sender. -/
def EvmContext.withdraw_near (self : EvmContext) (args : Bytes) :
    EvmResult Unit × EvmContext :=
  match WithdrawNearArgs.try_from_slice args with
  | none => (.err .ArgumentParseError, self)
  | some amount =>
    let sender := near_account_id_to_evm_address self.predecessor_id
    if self.balance_of sender < amount then (.err .InsufficientFunds, self)
    else (.ok (), self.sub_balance sender amount)

/-- The host-runtime outcome type (near_vm_logic VMOutcome), an external
collaborator type carrying the produced return data. -/
structure VMOutcome where
  return_data : Bytes

/-- The host-runtime error type (near_vm_errors VMError), an external
collaborator type. -/
structure VMError where
  code : Nat

/-- The dispatch of run_evm: the let result = match method_name binding of
the source, mapping each method name to one Execution Context operation and
encoding its typed result to bytes. -/
def run_evm_result (dInterp : DeployInterp) (cInterp : CallInterp)
    (context : EvmContext) (method_name : String) (args : Bytes) :
    EvmResult Bytes × EvmContext :=
  match method_name with
  | "deploy_code" =>
    let r := EvmContext.deploy_code dInterp context args
    (r.1.map address_to_vec, r.2)
  | "get_code" => (context.get_code args, context)
  | "call_function" => EvmContext.call_function cInterp context args
  | "get_storage_at" => (context.get_storage_at args, context)
  | "get_balance" => ((context.get_balance args).map u256_to_vec, context)
  | "deposit_near" =>
    let r := context.deposit_near args
    (r.1.map u256_to_vec, r.2)
  | "withdraw_near" =>
    let r := context.withdraw_near args
    (r.1.map (fun _ => []), r.2)
  | _ => (.err .UnknownError, context)

/-- run_evm from the source: builds the Execution Context, computes the
dispatch result, and returns the pair (None, None) to the host runtime —
the computed result is bound and then discarded.  Trie mutations performed
through the context do persist via the mutable handle, so the model returns
the final trie alongside the returned pair. -/
def run_evm (dInterp : DeployInterp) (cInterp : CallInterp)
    (state_update : Trie) (account_id predecessor_id : String)
    (attached_deposit : Nat) (method_name : String) (args : Bytes) :
    (Option VMOutcome × Option VMError) × Trie :=
  let context :=
    EvmContext.new state_update account_id predecessor_id attached_deposit
  let result := run_evm_result dInterp cInterp context method_name args
  ((none, none), result.2.trie_update)

theorem get_account_set_account (ctx : EvmContext) (addr : Bytes)
    (record : EvmAccount) (hb : record.balance < 2 ^ 256)
    (hn : record.nonce < 2 ^ 256) :
    (ctx.set_account addr record).get_account addr = record := by
  simp [EvmContext.set_account, EvmContext.get_account, Trie.get, Trie.set,
    EvmAccount.deserialize_serialize record hb hn]

theorem get_account_bounds (ctx : EvmContext) (addr : Bytes) :
    (ctx.get_account addr).balance < 2 ^ 256 ∧
      (ctx.get_account addr).nonce < 2 ^ 256 := by
  unfold EvmContext.get_account
  cases hg : ctx.trie_update.get ⟨ctx.account_id, addr⟩ with
  | none =>
    constructor <;> · show (0 : Nat) < 2 ^ 256; positivity
  | some v =>
    cases hd : EvmAccount.deserialize v with
    | none => simp only [Option.map, hd, Option.getD]
              constructor <;> · show (0 : Nat) < 2 ^ 256; positivity
    | some a =>
      simp only [Option.map, hd, Option.getD]
      exact EvmAccount.deserialize_bounds v a hd

theorem balance_of_add_balance (ctx : EvmContext) (addr : Bytes)
    (amount : Nat) (h : ctx.balance_of addr + amount < 2 ^ 256) :
    (ctx.add_balance addr amount).balance_of addr =
      ctx.balance_of addr + amount := by
  have hn := (get_account_bounds ctx addr).2
  have h2 : (ctx.get_account addr).balance + amount < 2 ^ 256 := h
  show ((ctx.set_account addr
    ⟨(ctx.get_account addr).balance + amount,
      (ctx.get_account addr).nonce⟩).get_account addr).balance =
    (ctx.get_account addr).balance + amount
  rw [get_account_set_account ctx addr
    ⟨(ctx.get_account addr).balance + amount,
      (ctx.get_account addr).nonce⟩ h2 hn]

theorem balance_of_sub_balance (ctx : EvmContext) (addr : Bytes)
    (amount : Nat) :
    (ctx.sub_balance addr amount).balance_of addr =
      ctx.balance_of addr - amount := by
  have hb := (get_account_bounds ctx addr).1
  have hn := (get_account_bounds ctx addr).2
  have h2 : (ctx.get_account addr).balance - amount < 2 ^ 256 := by omega
  show ((ctx.set_account addr
    ⟨(ctx.get_account addr).balance - amount,
      (ctx.get_account addr).nonce⟩).get_account addr).balance =
    (ctx.get_account addr).balance - amount
  rw [get_account_set_account ctx addr
    ⟨(ctx.get_account addr).balance - amount,
      (ctx.get_account addr).nonce⟩ h2 hn]

theorem deposit_near_eq (ctx : EvmContext) (args : Bytes)
    (hd0 : ctx.attached_deposit ≠ 0) (hlen : args.length = 20) :
    ctx.deposit_near args =
      (.ok ((ctx.add_balance args ctx.attached_deposit).balance_of args),
        ctx.add_balance args ctx.attached_deposit) := by
  unfold EvmContext.deposit_near
  rw [if_neg hd0, if_pos hlen]

/-- C2: for every 20-byte address argument and every positive attached
deposit, with the credited balance in 256-bit range, deposit_near succeeds,
the returned value is the new balance, and the balance of the address after
the call is its balance before the call plus the deposit. -/
theorem C2_deposit_near_credits (ctx : EvmContext) (args : Bytes)
    (hd : 0 < ctx.attached_deposit) (hlen : args.length = 20)
    (hov : ctx.balance_of args + ctx.attached_deposit < 2 ^ 256) :
    (ctx.deposit_near args).1 =
      .ok (ctx.balance_of args + ctx.attached_deposit) ∧
    (ctx.deposit_near args).2.balance_of args =
      ctx.balance_of args + ctx.attached_deposit := by
  have hd0 : ctx.attached_deposit ≠ 0 := by omega
  have hbal := balance_of_add_balance ctx args ctx.attached_deposit hov
  rw [deposit_near_eq ctx args hd0 hlen]
  exact ⟨by rw [hbal], hbal⟩

/-- C2 witness: depositing 100 to the zero address in the empty state
succeeds with new balance 100. -/
theorem C2_deposit_near_credits_witness :
    ((EvmContext.new Trie.empty "alice" "bob" 100).deposit_near
      (List.replicate 20 (0 : Byte))).1 =
      .ok ((EvmContext.new Trie.empty "alice" "bob" 100).balance_of
        (List.replicate 20 (0 : Byte)) + 100) ∧
    ((EvmContext.new Trie.empty "alice" "bob" 100).deposit_near
      (List.replicate 20 (0 : Byte))).2.balance_of
        (List.replicate 20 (0 : Byte)) =
      (EvmContext.new Trie.empty "alice" "bob" 100).balance_of
        (List.replicate 20 (0 : Byte)) + 100 :=
  C2_deposit_near_credits _ _ (by decide) (by decide) (by decide)

/-- C3: for every well-formed withdraw argument whose amount exceeds the
sender balance, withdraw_near returns InsufficientFunds and the context —
trie and account records included — is exactly what it was before. -/
theorem C3_withdraw_near_insufficient (ctx : EvmContext) (args : Bytes)
    (amount : Nat)
    (hargs : WithdrawNearArgs.try_from_slice args = some amount)
    (hgt : ctx.balance_of
      (near_account_id_to_evm_address ctx.predecessor_id) < amount) :
    ctx.withdraw_near args = (.err .InsufficientFunds, ctx) := by
  unfold EvmContext.withdraw_near
  rw [hargs]
  show (if ctx.balance_of
        (near_account_id_to_evm_address ctx.predecessor_id) < amount
      then ((.err .InsufficientFunds, ctx) : EvmResult Unit × EvmContext)
      else (.ok (), ctx.sub_balance
        (near_account_id_to_evm_address ctx.predecessor_id) amount)) =
    (.err .InsufficientFunds, ctx)
  rw [if_pos hgt]

/-- C3 witness: withdrawing 150 from a zero-balance sender fails with
InsufficientFunds and leaves the context unchanged. -/
theorem C3_withdraw_near_insufficient_witness :
    (EvmContext.new Trie.empty "alice" "bob" 0).withdraw_near
      ((150 : Byte) :: List.replicate 15 (0 : Byte)) =
      (.err .InsufficientFunds, EvmContext.new Trie.empty "alice" "bob" 0) :=
  C3_withdraw_near_insufficient _ _ 150 (by decide) (by decide)

/-- C4: for every well-formed withdraw argument whose amount is at most the
sender balance, withdraw_near succeeds and the sender balance after the call
is its balance before the call minus the amount. -/
theorem C4_withdraw_near_debits (ctx : EvmContext) (args : Bytes)
    (amount : Nat)
    (hargs : WithdrawNearArgs.try_from_slice args = some amount)
    (hle : amount ≤ ctx.balance_of
      (near_account_id_to_evm_address ctx.predecessor_id)) :
    (ctx.withdraw_near args).1 = .ok () ∧
    (ctx.withdraw_near args).2.balance_of
      (near_account_id_to_evm_address ctx.predecessor_id) =
      ctx.balance_of (near_account_id_to_evm_address ctx.predecessor_id)
        - amount := by
  have hnlt : ¬ ctx.balance_of
      (near_account_id_to_evm_address ctx.predecessor_id) < amount := by
    omega
  have heq : ctx.withdraw_near args =
      (.ok (), ctx.sub_balance
        (near_account_id_to_evm_address ctx.predecessor_id) amount) := by
    unfold EvmContext.withdraw_near
    rw [hargs]
    show (if ctx.balance_of
          (near_account_id_to_evm_address ctx.predecessor_id) < amount
        then ((.err .InsufficientFunds, ctx) : EvmResult Unit × EvmContext)
        else (.ok (), ctx.sub_balance
          (near_account_id_to_evm_address ctx.predecessor_id) amount)) =
      (.ok (), ctx.sub_balance
        (near_account_id_to_evm_address ctx.predecessor_id) amount)
    rw [if_neg hnlt]
  rw [heq]
  exact ⟨rfl, balance_of_sub_balance ctx
    (near_account_id_to_evm_address ctx.predecessor_id) amount⟩

/-- C4 witness: withdrawing 60 from a sender funded with 100 succeeds and
leaves balance 40. -/
theorem C4_withdraw_near_debits_witness :
    (((EvmContext.new Trie.empty "alice" "bob" 0).add_balance
      (near_account_id_to_evm_address "bob") 100).withdraw_near
      ((60 : Byte) :: List.replicate 15 (0 : Byte))).1 = .ok () ∧
    (((EvmContext.new Trie.empty "alice" "bob" 0).add_balance
      (near_account_id_to_evm_address "bob") 100).withdraw_near
      ((60 : Byte) :: List.replicate 15 (0 : Byte))).2.balance_of
      (near_account_id_to_evm_address
        ((EvmContext.new Trie.empty "alice" "bob" 0).add_balance
          (near_account_id_to_evm_address "bob") 100).predecessor_id) =
      ((EvmContext.new Trie.empty "alice" "bob" 0).add_balance
        (near_account_id_to_evm_address "bob") 100).balance_of
        (near_account_id_to_evm_address
          ((EvmContext.new Trie.empty "alice" "bob" 0).add_balance
            (near_account_id_to_evm_address "bob") 100).predecessor_id)
        - 60 :=
  C4_withdraw_near_debits _ _ 60 (by decide) (by decide)

/-- C5: for every argument buffer, calling deposit_near with a zero attached
deposit returns MissingDeposit and leaves the context — trie and account
records included — exactly unchanged; the check precedes any state access or
address decoding. -/
theorem C5_deposit_near_zero_deposit (ctx : EvmContext) (args : Bytes)
    (h : ctx.attached_deposit = 0) :
    ctx.deposit_near args = (.err .MissingDeposit, ctx) := by
  unfold EvmContext.deposit_near
  rw [if_pos h]

/-- C5 witness: a zero-deposit call fails with MissingDeposit and returns
the unchanged context. -/
theorem C5_deposit_near_zero_deposit_witness :
    (EvmContext.new Trie.empty "alice" "bob" 0).deposit_near
      (List.replicate 20 (0 : Byte)) =
      (.err .MissingDeposit, EvmContext.new Trie.empty "alice" "bob" 0) :=
  C5_deposit_near_zero_deposit _ _ (by decide)

/-- C6 (divergence from the spec): for every argument buffer shorter than 20
bytes, call_function does not produce an argument parse error — the source
slices args[..20] with no length check, so the call aborts the process. -/
theorem C6_call_function_short_buffer_panics (interp : CallInterp)
    (ctx : EvmContext) (args : Bytes) (h : args.length < 20) :
    EvmContext.call_function interp ctx args = (.panic, ctx) := by
  unfold EvmContext.call_function
  rw [if_neg (by omega)]

/-- C6 witness: the empty buffer is shorter than 20 bytes and call_function
aborts on it, for a concrete interpreter. -/
theorem C6_call_function_short_buffer_panics_witness :
    ([] : Bytes).length < 20 ∧
    EvmContext.call_function (fun c _ _ _ _ _ => (.err .UnknownError, c))
      (EvmContext.new Trie.empty "alice" "bob" 0) [] =
      (.panic, EvmContext.new Trie.empty "alice" "bob" 0) :=
  ⟨by decide, C6_call_function_short_buffer_panics _ _ _ (by decide)⟩

/-- C7 (divergence from the spec): on an address with no stored record,
get_balance does return zero, but get_code does not return an empty byte
sequence — code_at is unimplemented in the source, so get_code on a
well-formed address aborts the process. -/
theorem C7_get_code_panics_on_fresh_address :
    (EvmContext.new Trie.empty "alice" "bob" 0).get_balance
      (List.replicate 20 (0 : Byte)) = .ok 0 ∧
    (EvmContext.new Trie.empty "alice" "bob" 0).get_code
      (List.replicate 20 (0 : Byte)) = .panic :=
  ⟨rfl, rfl⟩

/-- C8: set_account followed by get_account on the same context and address
yields a record equal to the stored record in every field, for any 256-bit
field values. -/
theorem C8_set_account_get_account_round_trip (ctx : EvmContext)
    (addr : Bytes) (record : EvmAccount) (hb : record.balance < 2 ^ 256)
    (hn : record.nonce < 2 ^ 256) :
    (ctx.set_account addr record).get_account addr = record :=
  get_account_set_account ctx addr record hb hn

/-- C8 witness: storing the record with balance 7 and nonce 3 at the zero
address and reading it back returns the same record. -/
theorem C8_set_account_get_account_round_trip_witness :
    ((EvmContext.new Trie.empty "alice" "bob" 0).set_account
      (List.replicate 20 (0 : Byte)) ⟨7, 3⟩).get_account
      (List.replicate 20 (0 : Byte)) = ⟨7, 3⟩ :=
  C8_set_account_get_account_round_trip _ _ _ (by decide) (by decide)

/-- C9: for every argument buffer whose length is not exactly 52 bytes,
get_storage_at fails with ArgumentParseError. -/
theorem C9_get_storage_at_wrong_length (ctx : EvmContext) (args : Bytes)
    (h : args.length ≠ 52) :
    ctx.get_storage_at args = .err .ArgumentParseError := by
  unfold EvmContext.get_storage_at GetStorageAtArgs.try_from_slice
  rw [if_neg h]

/-- C9 witness: buffers of lengths 0, 51 and 53 all produce
ArgumentParseError. -/
theorem C9_get_storage_at_wrong_length_witness :
    (EvmContext.new Trie.empty "alice" "bob" 0).get_storage_at [] =
      .err .ArgumentParseError ∧
    (EvmContext.new Trie.empty "alice" "bob" 0).get_storage_at
      (List.replicate 51 (0 : Byte)) = .err .ArgumentParseError ∧
    (EvmContext.new Trie.empty "alice" "bob" 0).get_storage_at
      (List.replicate 53 (0 : Byte)) = .err .ArgumentParseError :=
  ⟨C9_get_storage_at_wrong_length _ _ (by decide),
    C9_get_storage_at_wrong_length _ _ (by decide),
    C9_get_storage_at_wrong_length _ _ (by decide)⟩

/-- C10: there are argument buffers of length other than 20 bytes — here the
one-byte buffer, with a positive attached deposit — on which get_balance and
deposit_near return no typed error: the length-asserting address conversion
aborts execution instead. -/
theorem C10_wrong_length_address_panics :
    (EvmContext.new Trie.empty "alice" "bob" 1).get_balance
      [(0 : Byte)] = .panic ∧
    (EvmContext.new Trie.empty "alice" "bob" 1).deposit_near [(0 : Byte)] =
      (.panic, EvmContext.new Trie.empty "alice" "bob" 1) :=
  ⟨rfl, rfl⟩

/-- C1 (divergence from the spec): run_evm always returns the pair
(None, None) to the host runtime, for every method and argument buffer —
while the dispatched operation does produce a result, shown here for a
successful get_balance whose encoded result is computed and then
discarded. -/
theorem C1_run_evm_discards_result (dInterp : DeployInterp)
    (cInterp : CallInterp) (t : Trie) (aid pid : String) (dep : Nat) :
    (∀ method_name args,
      (run_evm dInterp cInterp t aid pid dep method_name args).1 =
        (none, none)) ∧
    (run_evm_result dInterp cInterp (EvmContext.new t aid pid dep)
      "get_balance" (List.replicate 20 (0 : Byte))).1 =
      .ok (u256_to_vec ((EvmContext.new t aid pid dep).balance_of
        (List.replicate 20 (0 : Byte)))) :=
  ⟨fun _ _ => rfl, rfl⟩
